import Mathlib

/-!
Verification of the workout-generation engine of a single-file mobile
workout tracker (Motoko backend `main.mo`).

Shallow embedding conventions:
* `Float` is modelled by `ℚ`: the engine only uses `+`, `*`, `/`,
  `min`, `max` and comparisons, all of which are exact here.
* `Time.now()` becomes an explicit parameter `now : Int`
  (nanoseconds, as in the source).
* The caller `Principal` enters only through its byte blob, modelled
  as `callerBytes : List Nat`.
* The global mutable `shuffleCounter` is threaded explicitly: each
  call to the shuffle consumes one counter value, and the generators
  pass successive values exactly in the order the source performs the
  calls.
* The generators are modelled from the point where authorization and
  profile lookup have succeeded (those checks are plain guard code);
  the stored recovery state and profile are inputs.  The exercise
  catalog is a parameter of the `...With` variants; the top-level
  definitions fix it to the source's `exerciseLibrary`.
-/

namespace Tracker

/-- `let TEST_RECOVERY_MODE = true;` — compile-time constant, main.mo line 16. -/
def TEST_RECOVERY_MODE : Bool := true

inductive Gender
  | male
  | female
  | other
  deriving DecidableEq, Repr

inductive WeightUnit
  | kg
  | lb
  deriving DecidableEq, Repr

inductive TrainingFrequency
  | threeDays
  | fourDays
  | fiveDays
  deriving DecidableEq, Repr

structure Exercise where
  name : String
  primaryMuscleGroup : String
  equipmentType : String
  demoUrl : String
  recoveryTime : Int
  deriving DecidableEq, Repr

structure SetData where
  weight : ℚ
  reps : Nat
  deriving DecidableEq, Repr

structure WorkoutExercise where
  exercise : Exercise
  sets : Nat
  reps : Nat
  suggestedWeight : ℚ
  setData : List SetData
  deriving DecidableEq, Repr

structure MuscleRecovery where
  lastTrained : Int
  recoveryPercentage : ℚ
  deriving DecidableEq, Repr

structure RecoveryState where
  chest : MuscleRecovery
  back : MuscleRecovery
  shoulders : MuscleRecovery
  arms : MuscleRecovery
  core : MuscleRecovery
  quadsRecovery : MuscleRecovery
  hamstringsRecovery : MuscleRecovery
  glutesRecovery : MuscleRecovery
  calvesRecovery : MuscleRecovery
  deriving DecidableEq, Repr

structure UserProfile where
  gender : Gender
  bodyweight : ℚ
  weightUnit : WeightUnit
  trainingFrequency : TrainingFrequency
  darkMode : Bool
  restTime : Int
  muscleGroupRestInterval : Int
  deriving DecidableEq, Repr

structure WorkoutWithNote where
  exercises : List WorkoutExercise
  timestamp : Int
  totalVolume : ℚ
  note : String
  deriving DecidableEq, Repr

inductive AppError
  | unauthorized (msg : String)
  | adminOnly (msg : String)
  | userNotFound (msg : String)
  | internalError (msg : String)
  | badArguments (msg : String)
  | userProfileNotFound (msg : String)
  | optimizationFailed (msg : String)
  deriving DecidableEq, Repr

inductive Result (α : Type) where
  | ok (value : α)
  | err (e : AppError)
  deriving DecidableEq, Repr

/-- Projection used only to state theorems: the note of a successful result. -/
def Result.noteOf : Result WorkoutWithNote → Option String
  | .ok w => some w.note
  | .err _ => none

/-- Projection used only to state theorems: the exercise list of a successful result. -/
def Result.exercisesOf : Result WorkoutWithNote → Option (List WorkoutExercise)
  | .ok w => some w.exercises
  | .err _ => none

/-- `toLower` from main.mo: maps ASCII codes 65–90 up by 32, other chars unchanged. -/
def toLowerChar (c : Char) : Char :=
  let code := c.toNat
  if 65 ≤ code ∧ code ≤ 90 then Char.ofNat (code + 32) else c

def toLower (t : String) : String :=
  ⟨t.data.map toLowerChar⟩

/-- `calculateRecoveryPercentage` (main.mo lines 518–524); `Time.now()` is the
explicit `now` parameter, nanoseconds to hours via division by 3.6e12. -/
def calculateRecoveryPercentage (now : Int) (lastTrained : Int) (recoveryTimeHours : Int) : ℚ :=
  let elapsedNanos : Int := now - lastTrained
  let elapsedHours : ℚ := (elapsedNanos : ℚ) / (3600000000000 : ℚ)
  min 100 ((elapsedHours / (recoveryTimeHours : ℚ)) * 100)

/-- `getLastTrained` (main.mo lines 526–539). -/
def getLastTrained (now : Int) (group : String) (recovery : RecoveryState) : Int :=
  if group = "Chest" then recovery.chest.lastTrained
  else if group = "Back" then recovery.back.lastTrained
  else if group = "Shoulders" then recovery.shoulders.lastTrained
  else if group = "Arms" then recovery.arms.lastTrained
  else if group = "Core" then recovery.core.lastTrained
  else if group = "Quads" then recovery.quadsRecovery.lastTrained
  else if group = "Hamstrings" then recovery.hamstringsRecovery.lastTrained
  else if group = "Glutes" then recovery.glutesRecovery.lastTrained
  else if group = "Calves" then recovery.calvesRecovery.lastTrained
  else now

/-- `getExerciseCountForGroup` (main.mo lines 282–318).  The source reads the
global constant `TEST_RECOVERY_MODE`; it is the `testMode` parameter here.
Note the source's thresholds for the leg subgroups are 80 / 50. -/
def getExerciseCountForGroup (testMode : Bool) (now : Int) (group : String)
    (recovery : RecoveryState) : Nat :=
  if testMode then
    if group = "Core" then 2 else 2
  else if group = "Quads" then
    let recoveryPct := recovery.quadsRecovery.recoveryPercentage
    if recoveryPct ≥ 80 then 2 else if recoveryPct ≥ 50 then 1 else 0
  else if group = "Hamstrings" then
    let recoveryPct := recovery.hamstringsRecovery.recoveryPercentage
    if recoveryPct ≥ 80 then 2 else if recoveryPct ≥ 50 then 1 else 0
  else if group = "Glutes" then
    let recoveryPct := recovery.glutesRecovery.recoveryPercentage
    if recoveryPct ≥ 80 then 2 else if recoveryPct ≥ 50 then 1 else 0
  else if group = "Calves" then
    let recoveryPct := recovery.calvesRecovery.recoveryPercentage
    if recoveryPct ≥ 80 then 2 else if recoveryPct ≥ 50 then 1 else 0
  else if group = "Chest" ∨ group = "Back" ∨ group = "Shoulders" ∨ group = "Arms" then
    if calculateRecoveryPercentage now (getLastTrained now group recovery) 72 ≥ 65 then 2 else 0
  else if group = "Core" then 2
  else 0

/-- `refreshAllRecoveryPercentages` (main.mo lines 541–580).  In test mode the
source builds one record from `existing.chest.lastTrained` and reuses it for
all nine groups. -/
def refreshAllRecoveryPercentages (testMode : Bool) (now : Int)
    (existing : RecoveryState) : RecoveryState :=
  if testMode then
    let fullRecovery : MuscleRecovery :=
      { lastTrained := existing.chest.lastTrained, recoveryPercentage := 100 }
    { chest := fullRecovery
      back := fullRecovery
      shoulders := fullRecovery
      arms := fullRecovery
      core := fullRecovery
      quadsRecovery := fullRecovery
      hamstringsRecovery := fullRecovery
      glutesRecovery := fullRecovery
      calvesRecovery := fullRecovery }
  else
    { chest := { existing.chest with
        recoveryPercentage := calculateRecoveryPercentage now existing.chest.lastTrained 72 }
      back := { existing.back with
        recoveryPercentage := calculateRecoveryPercentage now existing.back.lastTrained 72 }
      shoulders := { existing.shoulders with
        recoveryPercentage := calculateRecoveryPercentage now existing.shoulders.lastTrained 72 }
      arms := { existing.arms with
        recoveryPercentage := calculateRecoveryPercentage now existing.arms.lastTrained 72 }
      core := { existing.core with
        recoveryPercentage := calculateRecoveryPercentage now existing.core.lastTrained 48 }
      quadsRecovery := { existing.quadsRecovery with
        recoveryPercentage := calculateRecoveryPercentage now existing.quadsRecovery.lastTrained 72 }
      hamstringsRecovery := { existing.hamstringsRecovery with
        recoveryPercentage := calculateRecoveryPercentage now existing.hamstringsRecovery.lastTrained 72 }
      glutesRecovery := { existing.glutesRecovery with
        recoveryPercentage := calculateRecoveryPercentage now existing.glutesRecovery.lastTrained 72 }
      calvesRecovery := { existing.calvesRecovery with
        recoveryPercentage := calculateRecoveryPercentage now existing.calvesRecovery.lastTrained 72 } }

/-- `calculateLegsFromSubgroups` (main.mo lines 264–280). -/
def calculateLegsFromSubgroups (quads hamstrings glutes calves : MuscleRecovery) :
    MuscleRecovery :=
  let latest := max quads.lastTrained
    (max hamstrings.lastTrained (max glutes.lastTrained calves.lastTrained))
  let weightedRecovery := quads.recoveryPercentage * 0.38 +
    hamstrings.recoveryPercentage * 0.22 +
    glutes.recoveryPercentage * 0.30 +
    calves.recoveryPercentage * 0.10
  let clampedRecovery := min 100 (max 0 weightedRecovery)
  { lastTrained := latest, recoveryPercentage := clampedRecovery }

/-- `principalHash` (main.mo lines 659–666): fold the principal's byte blob
through `hash := (hash * 31 + byte) % 1_000_000_007`, starting from 0. -/
def principalHash (callerBytes : List Nat) : Nat :=
  callerBytes.foldl (fun hash b => (hash * 31 + b) % 1000000007) 0

/-- One array swap on lists: exchange positions `i` and `j` (no-op if out of
bounds; the shuffle only calls it in bounds). -/
def listSwap {α : Type} (l : List α) (i j : Nat) : List α :=
  match l[i]?, l[j]? with
  | some x, some y => (l.set i y).set j x
  | _, _ => l

/-- The `while (i > 1) { i -= 1; ... }` loop of `shuffleArray`
(main.mo lines 673–680): the argument is the value of `i` at the loop head. -/
def shuffleLoop {α : Type} (seed : Nat) : Nat → List α → List α
  | 0, a => a
  | 1, a => a
  | i + 2, a => shuffleLoop seed (i + 1) (listSwap a (i + 1) ((seed + (i + 1)) % (i + 2)))

/-- `shuffleArray` body given the seed (main.mo lines 668–682). -/
def shuffleArray {α : Type} (seed : Nat) (arr : List α) : List α :=
  shuffleLoop seed arr.length arr

/-- One call of `shuffleArray` as the source performs it: the seed is
`principalHash(caller) + shuffleCounter`; the caller's counter value is `counter`. -/
def shuffleCall {α : Type} (callerBytes : List Nat) (counter : Nat) (arr : List α) : List α :=
  shuffleArray (principalHash callerBytes + counter) arr

/-- Modelled from the spec: the reference shuffle, in the spec's own indexing —
iterate `i` from `N` down to `2`, swapping positions `i - 1` and
`(seed + i - 1) % i`. -/
def shuffleSpecLoop {α : Type} (seed : Nat) : Nat → List α → List α
  | 0, a => a
  | 1, a => a
  | i + 2, a => shuffleSpecLoop seed (i + 1) (listSwap a ((i + 2) - 1) ((seed + (i + 2) - 1) % (i + 2)))

/-- Modelled from the spec: reference shuffle of a whole list. -/
def shuffleSpec {α : Type} (seed : Nat) (arr : List α) : List α :=
  shuffleSpecLoop seed arr.length arr

/-- Catalog entry helper: every `demoUrl` in the source shares the same host
prefix, so only the final path segment is written per entry. -/
def mkExercise (name group equipment slug : String) (recovery : Int) : Exercise :=
  { name := name
    primaryMuscleGroup := group
    equipmentType := equipment
    demoUrl := "https://www.muscleandstrength.com/exercises/" ++ slug
    recoveryTime := recovery }

/-- `exerciseLibrary` (main.mo lines 102–239), all 58 entries in source order. -/
def exerciseLibrary : List Exercise := [
  mkExercise "Barbell Squats" "Quads" "Barbell" "barbell-squat" 72,
  mkExercise "Romanian Deadlifts" "Hamstrings" "Barbell" "romanian-deadlift" 72,
  mkExercise "Bulgarian Split Squats" "Quads" "Dumbbell" "bulgarian-split-squat" 72,
  mkExercise "Leg Curls" "Hamstrings" "Machine" "leg-curl" 72,
  mkExercise "Leg Extensions" "Quads" "Machine" "leg-extension" 72,
  mkExercise "Hip Thrusts" "Glutes" "Barbell" "barbell-hip-thrust" 72,
  mkExercise "Glute Bridges" "Glutes" "Bodyweight" "glute-bridge" 72,
  mkExercise "Standing Calf Raises" "Calves" "Machine" "standing-calf-raise" 72,
  mkExercise "Seated Calf Raises" "Calves" "Machine" "seated-calf-raise" 72,
  mkExercise "Goblet Squats" "Quads" "Dumbbell" "goblet-squat" 72,
  mkExercise "Walking Lunges" "Quads" "Dumbbell" "walking-lunge" 72,
  mkExercise "Stiff-Leg Deadlifts" "Hamstrings" "Barbell" "stiff-leg-deadlift" 72,
  mkExercise "Good Mornings" "Hamstrings" "Barbell" "good-morning" 72,
  mkExercise "Cable Kickbacks" "Glutes" "Cable" "cable-glute-kickback" 72,
  mkExercise "Sumo Deadlifts" "Glutes" "Barbell" "sumo-deadlift" 72,
  mkExercise "Donkey Calf Raises" "Calves" "Machine" "donkey-calf-raise" 72,
  mkExercise "Single-Leg Calf Raises" "Calves" "Bodyweight" "single-leg-calf-raise" 72,
  mkExercise "Planks" "Core" "Bodyweight" "plank" 48,
  mkExercise "Crunches" "Core" "Bodyweight" "crunch" 48,
  mkExercise "Russian Twists" "Core" "Bodyweight" "russian-twist" 48,
  mkExercise "Leg Raises" "Core" "Bodyweight" "leg-raise" 48,
  mkExercise "Cable Crunches" "Core" "Cable" "cable-crunch" 48,
  mkExercise "Ab Wheel Rollouts" "Core" "Bodyweight" "ab-wheel-rollout" 48,
  mkExercise "Mountain Climbers" "Core" "Bodyweight" "mountain-climber" 48,
  mkExercise "Bench Press" "Chest" "Barbell" "bench-press" 72,
  mkExercise "Incline Bench Press" "Chest" "Barbell" "incline-bench-press" 72,
  mkExercise "Chest Flys" "Chest" "Dumbbell" "dumbbell-fly" 72,
  mkExercise "Push-Ups" "Chest" "Bodyweight" "push-up" 72,
  mkExercise "Pull-Ups" "Back" "Bodyweight" "pull-up" 72,
  mkExercise "Barbell Rows" "Back" "Barbell" "barbell-row" 72,
  mkExercise "Lat Pulldowns" "Back" "Machine" "lat-pulldown" 72,
  mkExercise "Seated Rows" "Back" "Machine" "seated-row" 72,
  mkExercise "Shoulder Press" "Shoulders" "Barbell" "barbell-shoulder-press" 72,
  mkExercise "Lateral Raises" "Shoulders" "Dumbbell" "lateral-raise" 72,
  mkExercise "Front Raises" "Shoulders" "Dumbbell" "front-raise" 72,
  mkExercise "Arnold Press" "Shoulders" "Dumbbell" "arnold-press" 72,
  mkExercise "Bicep Curls" "Arms" "Dumbbell" "dumbbell-curl" 72,
  mkExercise "Tricep Extensions" "Arms" "Dumbbell" "dumbbell-tricep-extension" 72,
  mkExercise "Hammer Curls" "Arms" "Dumbbell" "hammer-curl" 72,
  mkExercise "Tricep Pushdowns" "Arms" "Cable" "cable-tricep-pushdown" 72,
  mkExercise "Barbell Curls" "Arms" "Barbell" "barbell-curl" 72,
  mkExercise "Reverse Flys" "Shoulders" "Dumbbell" "reverse-fly" 72,
  mkExercise "Face Pulls" "Shoulders" "Cable" "cable-face-pull" 72,
  mkExercise "Incline Curls" "Arms" "Dumbbell" "incline-dumbbell-curl" 72,
  mkExercise "Overhead Tricep Extension" "Arms" "Dumbbell" "overhead-tricep-extension" 72,
  mkExercise "Dumbbell Bench Press" "Chest" "Dumbbell" "dumbbell-bench-press" 72,
  mkExercise "Decline Bench Press" "Chest" "Barbell" "decline-bench-press" 72,
  mkExercise "Incline Dumbbell Press" "Chest" "Dumbbell" "incline-dumbbell-press" 72,
  mkExercise "Cable Crossovers" "Chest" "Cable" "cable-crossover" 72,
  mkExercise "Chest Dips" "Chest" "Bodyweight" "dip" 72,
  mkExercise "Machine Chest Press" "Chest" "Machine" "machine-chest-press" 72,
  mkExercise "Svend Press" "Chest" "Plate" "svend-press" 72,
  mkExercise "Wide Grip Push-Ups" "Chest" "Bodyweight" "wide-grip-push-up" 72,
  mkExercise "Deadlift" "Back" "Barbell" "barbell-deadlift" 72,
  mkExercise "Bent Over Row" "Back" "Barbell" "barbell-bent-over-row" 72,
  mkExercise "T-Bar Row" "Back" "Barbell" "t-bar-row" 72,
  mkExercise "Single Arm Dumbbell Row" "Back" "Dumbbell" "single-arm-dumbbell-row" 72,
  mkExercise "Straight Arm Pulldown" "Back" "Cable" "straight-arm-pulldown" 72]

/-- `calculateSetsAndReps` (main.mo lines 622–630). -/
def calculateSetsAndReps (profile : UserProfile) : Nat × Nat :=
  let sets := match profile.trainingFrequency with
    | .threeDays => 4
    | .fourDays => 3
    | .fiveDays => 3
  let reps := 10
  (sets, reps)

/-- `calculateSuggestedWeight` (main.mo lines 632–657). -/
def calculateSuggestedWeight (exercise : Exercise) (profile : UserProfile) : ℚ :=
  let baseWeight := match profile.gender with
    | .male => profile.bodyweight * 0.5
    | .female => profile.bodyweight * 0.35
    | .other => profile.bodyweight * 0.4
  let muscleMultiplier : ℚ :=
    if exercise.primaryMuscleGroup = "Quads" then 1.3
    else if exercise.primaryMuscleGroup = "Hamstrings" then 1.25
    else if exercise.primaryMuscleGroup = "Glutes" then 1.1
    else if exercise.primaryMuscleGroup = "Calves" then 1.1
    else if exercise.primaryMuscleGroup = "Core" then 0.3
    else 1.0
  let equipmentMultiplier : ℚ :=
    if exercise.equipmentType = "Barbell" then 1.2
    else if exercise.equipmentType = "Dumbbell" then 0.8
    else if exercise.equipmentType = "Machine" then 1.0
    else if exercise.equipmentType = "Cable" then 0.9
    else if exercise.equipmentType = "Bodyweight" then 0.0
    else if exercise.equipmentType = "Band" then 0.4
    else 0.8
  let weight := baseWeight * muscleMultiplier * equipmentMultiplier
  max 0 weight

/-- `buildShuffledSectionFromArray` (main.mo lines 582–620); the shuffle's seed
(`principalHash(caller) + shuffleCounter` at call time) is a parameter. -/
def buildShuffledSectionFromArray (seed : Nat) (profile : UserProfile)
    (exercises : List Exercise) (group : String) (groupLimit : Nat) : List WorkoutExercise :=
  let groupExercises := exercises.filter
    (fun e => toLower e.primaryMuscleGroup = toLower group)
  let shuffledGroup := shuffleArray seed groupExercises
  let count := min shuffledGroup.length groupLimit
  let selected := if shuffledGroup.length > count then shuffledGroup.take count else shuffledGroup
  selected.map (fun e =>
    { exercise := e
      sets := (calculateSetsAndReps profile).1
      reps := (calculateSetsAndReps profile).2
      suggestedWeight := calculateSuggestedWeight e profile
      setData := [] })

/-- `uniqueByName`'s loop (main.mo lines 431–451): `seen` is the key set of the
source's name map. -/
def uniqueByNameAux (seen : List String) : List WorkoutExercise → List WorkoutExercise
  | [] => []
  | e :: rest =>
    let name := e.exercise.name
    if name ∈ seen then uniqueByNameAux seen rest
    else e :: uniqueByNameAux (name :: seen) rest

/-- `uniqueByName` (main.mo lines 431–451). -/
def uniqueByName (exercises : List WorkoutExercise) : List WorkoutExercise :=
  uniqueByNameAux [] exercises

/-- Session volume: `foldLeft(0.0, acc + sets*reps*suggestedWeight)` as in all
three generators. -/
def totalVolumeOf (exercises : List WorkoutExercise) : ℚ :=
  exercises.foldl (fun acc we => acc + ((we.sets : ℚ) * (we.reps : ℚ) * we.suggestedWeight)) 0

/-- The five per-group selections of `generateLowerBodyWorkout`
(main.mo lines 719–747), with the shuffle-counter values the source's five
successive `shuffleArray` calls observe. -/
structure LowerSections where
  quads : List WorkoutExercise
  hamstrings : List WorkoutExercise
  glutes : List WorkoutExercise
  calves : List WorkoutExercise
  core : List WorkoutExercise
  deriving DecidableEq, Repr

def lowerBodySectionsWith (lib : List Exercise) (testMode : Bool) (now : Int)
    (callerBytes : List Nat) (counter : Nat) (profile : UserProfile)
    (storedRecovery : RecoveryState) : LowerSections :=
  let currentRecovery := refreshAllRecoveryPercentages testMode now storedRecovery
  let h := principalHash callerBytes
  { quads := buildShuffledSectionFromArray (h + counter) profile lib "Quads"
      (getExerciseCountForGroup testMode now "Quads" currentRecovery)
    hamstrings := buildShuffledSectionFromArray (h + (counter + 1)) profile lib "Hamstrings"
      (getExerciseCountForGroup testMode now "Hamstrings" currentRecovery)
    glutes := buildShuffledSectionFromArray (h + (counter + 2)) profile lib "Glutes"
      (getExerciseCountForGroup testMode now "Glutes" currentRecovery)
    calves := buildShuffledSectionFromArray (h + (counter + 3)) profile lib "Calves"
      (getExerciseCountForGroup testMode now "Calves" currentRecovery)
    core := buildShuffledSectionFromArray (h + (counter + 4)) profile lib "Core"
      (getExerciseCountForGroup testMode now "Core" currentRecovery) }

/-- `totalLegCount` of main.mo line 749 (also recomputed as `finalLegCount` at
line 767): the pre-dedup, pre-cap leg-subgroup selection count. -/
def LowerSections.legCount (s : LowerSections) : Nat :=
  s.quads.length + s.hamstrings.length + s.glutes.length + s.calves.length

/-- `totalExerciseCount` of main.mo line 750. -/
def LowerSections.totalCount (s : LowerSections) : Nat :=
  s.legCount + s.core.length

/-- `generateLowerBodyWorkout` (main.mo lines 704–803) after authorization and
profile lookup, over an arbitrary catalog `lib`. -/
def generateLowerBodyWorkoutWith (lib : List Exercise) (testMode : Bool) (now : Int)
    (callerBytes : List Nat) (counter : Nat) (profile : UserProfile)
    (storedRecovery : RecoveryState) : Result WorkoutWithNote :=
  let s := lowerBodySectionsWith lib testMode now callerBytes counter profile storedRecovery
  if s.totalCount = 0 then
    .ok { exercises := [], timestamp := now, totalVolume := 0,
          note := "All lower muscle groups recovering" }
  else
    let allExercises := s.quads ++ s.hamstrings ++ s.glutes ++ s.calves ++ s.core
    let finalExercises := uniqueByName allExercises
    let finalLegCount := s.legCount
    if finalExercises.length = 0 then
      .ok { exercises := [], timestamp := now, totalVolume := 0,
            note := "All lower body and core groups recovering" }
    else
      let cappedExercises :=
        if finalExercises.length > 8 then finalExercises.take 8 else finalExercises
      let note :=
        if finalLegCount = 0 then "Core-focused session"
        else if cappedExercises.length ≤ 3 then "Limited leg exercises due to muscle recovery"
        else "Full lower-body workout (limited volume)"
      .ok { exercises := cappedExercises, timestamp := now,
            totalVolume := totalVolumeOf cappedExercises, note := note }

/-- `generateLowerBodyWorkout` with the source's fixed `exerciseLibrary`. -/
def generateLowerBodyWorkout (testMode : Bool) (now : Int) (callerBytes : List Nat)
    (counter : Nat) (profile : UserProfile) (storedRecovery : RecoveryState) :
    Result WorkoutWithNote :=
  generateLowerBodyWorkoutWith exerciseLibrary testMode now callerBytes counter profile
    storedRecovery

/-- The group loop shared by `generateUpperBodyWorkout` and
`generateFullBodyWorkout` (main.mo lines 829–835 and 870–876): a section is
built — and the shuffle counter advanced — only when the group's limit is
positive. -/
def assembleSections (testMode : Bool) (now : Int) (callerBytes : List Nat) (counter : Nat)
    (profile : UserProfile) (lib : List Exercise) (currentRecovery : RecoveryState)
    (groups : List String) : List WorkoutExercise :=
  (groups.foldl
    (fun acc group =>
      let limit := getExerciseCountForGroup testMode now group currentRecovery
      if limit > 0 then
        (acc.1 ++ buildShuffledSectionFromArray (principalHash callerBytes + acc.2) profile
            lib group limit,
          acc.2 + 1)
      else acc)
    (([] : List WorkoutExercise), counter)).1

def upperMuscleGroupOrder : List String := ["Chest", "Back", "Shoulders", "Arms", "Core"]

def fullMuscleGroupOrder : List String :=
  ["Chest", "Back", "Shoulders", "Arms", "Quads", "Hamstrings", "Glutes", "Calves", "Core"]

/-- The assembled, deduplicated exercise list of `generateUpperBodyWorkout`
(main.mo lines 868–877). -/
def upperBodyAssembled (lib : List Exercise) (testMode : Bool) (now : Int)
    (callerBytes : List Nat) (counter : Nat) (profile : UserProfile)
    (storedRecovery : RecoveryState) : List WorkoutExercise :=
  uniqueByName (assembleSections testMode now callerBytes counter profile lib
    (refreshAllRecoveryPercentages testMode now storedRecovery) upperMuscleGroupOrder)

/-- The assembled, deduplicated exercise list of `generateFullBodyWorkout`
(main.mo lines 817–836). -/
def fullBodyAssembled (lib : List Exercise) (testMode : Bool) (now : Int)
    (callerBytes : List Nat) (counter : Nat) (profile : UserProfile)
    (storedRecovery : RecoveryState) : List WorkoutExercise :=
  uniqueByName (assembleSections testMode now callerBytes counter profile lib
    (refreshAllRecoveryPercentages testMode now storedRecovery) fullMuscleGroupOrder)

/-- Shared tail of `generateUpperBodyWorkout` / `generateFullBodyWorkout`
(main.mo lines 837–853 and 878–894). -/
def finishUpperOrFullBody (now : Int) (allExercises : List WorkoutExercise) :
    Result WorkoutWithNote :=
  if allExercises.length = 0 then
    .err (.optimizationFailed
      "All muscle groups are under recovery. Please rest or try again later.")
  else
    let note :=
      if allExercises.length < 10 then "Reduced volume due to recovery constraints." else ""
    .ok { exercises := allExercises, timestamp := now,
          totalVolume := totalVolumeOf allExercises, note := note }

/-- `generateUpperBodyWorkout` (main.mo lines 856–895) after authorization and
profile lookup, over an arbitrary catalog `lib`. -/
def generateUpperBodyWorkoutWith (lib : List Exercise) (testMode : Bool) (now : Int)
    (callerBytes : List Nat) (counter : Nat) (profile : UserProfile)
    (storedRecovery : RecoveryState) : Result WorkoutWithNote :=
  finishUpperOrFullBody now
    (upperBodyAssembled lib testMode now callerBytes counter profile storedRecovery)

/-- `generateFullBodyWorkout` (main.mo lines 805–854) after authorization and
profile lookup, over an arbitrary catalog `lib`. -/
def generateFullBodyWorkoutWith (lib : List Exercise) (testMode : Bool) (now : Int)
    (callerBytes : List Nat) (counter : Nat) (profile : UserProfile)
    (storedRecovery : RecoveryState) : Result WorkoutWithNote :=
  finishUpperOrFullBody now
    (fullBodyAssembled lib testMode now callerBytes counter profile storedRecovery)

/-- `generateUpperBodyWorkout` with the source's fixed `exerciseLibrary`. -/
def generateUpperBodyWorkout (testMode : Bool) (now : Int) (callerBytes : List Nat)
    (counter : Nat) (profile : UserProfile) (storedRecovery : RecoveryState) :
    Result WorkoutWithNote :=
  generateUpperBodyWorkoutWith exerciseLibrary testMode now callerBytes counter profile
    storedRecovery

/-- `generateFullBodyWorkout` with the source's fixed `exerciseLibrary`. -/
def generateFullBodyWorkout (testMode : Bool) (now : Int) (callerBytes : List Nat)
    (counter : Nat) (profile : UserProfile) (storedRecovery : RecoveryState) :
    Result WorkoutWithNote :=
  generateFullBodyWorkoutWith exerciseLibrary testMode now callerBytes counter profile
    storedRecovery

/-! Concrete values used by witnesses and counterexamples. -/

/-- A sample stored profile: male, 80 kg bodyweight, three training days. -/
def prof0 : UserProfile := ⟨.male, 80, .kg, .threeDays, false, 60, 48⟩

/-- A recovery state in which every group was trained at instant 0. -/
def allTrainedNow : RecoveryState :=
  ⟨⟨0, 0⟩, ⟨0, 0⟩, ⟨0, 0⟩, ⟨0, 0⟩, ⟨0, 0⟩, ⟨0, 0⟩, ⟨0, 0⟩, ⟨0, 0⟩, ⟨0, 0⟩⟩

/-- A recovery state whose quads sit at 40% recovery, everything else at 100%. -/
def quadsForty : RecoveryState :=
  ⟨⟨0, 100⟩, ⟨0, 100⟩, ⟨0, 100⟩, ⟨0, 100⟩, ⟨0, 100⟩, ⟨0, 40⟩, ⟨0, 100⟩, ⟨0, 100⟩, ⟨0, 100⟩⟩

/-- A recovery state whose groups disagree on `lastTrained` (back at 5, chest at 0). -/
def mixedState : RecoveryState :=
  ⟨⟨0, 0⟩, ⟨5, 0⟩, ⟨0, 0⟩, ⟨0, 0⟩, ⟨0, 0⟩, ⟨0, 0⟩, ⟨0, 0⟩, ⟨0, 0⟩, ⟨0, 0⟩⟩

/-- Everything trained at instant 0 except quads, trained 36 hours earlier
(36 h of a 72 h window puts the refreshed quads percentage at exactly 50). -/
def quadsTrainedThirtySixHoursAgo : RecoveryState :=
  ⟨⟨0, 0⟩, ⟨0, 0⟩, ⟨0, 0⟩, ⟨0, 0⟩, ⟨0, 0⟩, ⟨-129600000000000, 0⟩, ⟨0, 0⟩, ⟨0, 0⟩, ⟨0, 0⟩⟩

/-- A one-entry catalog, used to exercise the generators on small inputs. -/
def tinyLib : List Exercise := [mkExercise "Planks" "Core" "Bodyweight" "plank" 48]

/-- The selection the generators produce from `tinyLib` under `prof0`. -/
def planksSelected : WorkoutExercise :=
  { exercise := mkExercise "Planks" "Core" "Bodyweight" "plank" 48
    sets := 4, reps := 10, suggestedWeight := 0, setData := [] }

/-- The lower-body plan generated from `tinyLib`. -/
def wCoreOnly : WorkoutWithNote :=
  { exercises := [planksSelected], timestamp := 0, totalVolume := 0,
    note := "Core-focused session" }

/-- The upper-body / full-body plan generated from `tinyLib`. -/
def wReduced : WorkoutWithNote :=
  { exercises := [planksSelected], timestamp := 0, totalVolume := 0,
    note := "Reduced volume due to recovery constraints." }

/-- Sample muscle-recovery records for the leg-aggregation witness. -/
def mrA : MuscleRecovery := ⟨10, 80⟩

def mrB : MuscleRecovery := ⟨5, 60⟩

def mrC : MuscleRecovery := ⟨7, 40⟩

def mrD : MuscleRecovery := ⟨2, 20⟩

/-! Helper lemmas. -/

/-- Consing a list's `j`-th element onto the list with position `j` overwritten
by `x` permutes consing `x` itself. -/
theorem cons_set_perm {α : Type} : ∀ (t : List α) (j : Nat) (x : α) (h : j < t.length),
    (t[j] :: t.set j x).Perm (x :: t)
  | a :: t, 0, x, _ => by
    simpa using List.Perm.swap x a t
  | a :: t, j+1, x, h => by
    have hj : j < t.length := by simpa using h
    simp only [List.getElem_cons_succ, List.set_cons_succ]
    have ih := cons_set_perm t j x hj
    exact ((List.Perm.swap _ _ _).trans (ih.cons a)).trans (List.Perm.swap _ _ _)

/-- Writing `l[j]` at position `i` and `l[i]` at position `j` permutes `l`. -/
theorem set_set_perm {α : Type} : ∀ (l : List α) (i j : Nat) (hi : i < l.length)
    (hj : j < l.length), ((l.set i l[j]).set j l[i]).Perm l
  | a :: t, 0, 0, _, _ => by simp
  | a :: t, 0, j+1, hi, hj => by
    simp only [List.getElem_cons_zero, List.getElem_cons_succ, List.set_cons_zero,
      List.set_cons_succ]
    exact cons_set_perm t j a (by simpa using hj)
  | a :: t, i+1, 0, hi, hj => by
    simp only [List.getElem_cons_zero, List.getElem_cons_succ, List.set_cons_zero,
      List.set_cons_succ]
    exact cons_set_perm t i a (by simpa using hi)
  | a :: t, i+1, j+1, hi, hj => by
    simp only [List.getElem_cons_succ, List.set_cons_succ]
    exact (set_set_perm t i j (by simpa using hi) (by simpa using hj)).cons a

/-- `listSwap` always permutes its input. -/
theorem listSwap_perm {α : Type} (l : List α) (i j : Nat) : (listSwap l i j).Perm l := by
  unfold listSwap
  split
  next x y hx hy =>
    have hi : i < l.length := (List.getElem?_eq_some.mp hx).1
    have hj : j < l.length := (List.getElem?_eq_some.mp hy).1
    have hxv : l[i] = x := (List.getElem?_eq_some.mp hx).2
    have hyv : l[j] = y := (List.getElem?_eq_some.mp hy).2
    rw [← hxv, ← hyv]
    exact set_set_perm l i j hi hj
  next => exact List.Perm.refl l

/-- Every pass of the shuffle loop permutes the list. -/
theorem shuffleLoop_perm {α : Type} (seed : Nat) :
    ∀ (n : Nat) (l : List α), (shuffleLoop seed n l).Perm l
  | 0, l => List.Perm.refl l
  | 1, l => List.Perm.refl l
  | n + 2, l => by
    show (shuffleLoop seed (n + 1) (listSwap l (n + 1) ((seed + (n + 1)) % (n + 2)))).Perm l
    exact (shuffleLoop_perm seed (n + 1) _).trans (listSwap_perm l _ _)

/-- `shuffleArray` returns a permutation of its input. -/
theorem shuffleArray_perm {α : Type} (seed : Nat) (arr : List α) :
    (shuffleArray seed arr).Perm arr :=
  shuffleLoop_perm seed arr.length arr

/-- The source's decrement-then-swap loop coincides with the spec's
"swap positions `i-1` and `(seed + i - 1) mod i`" loop. -/
theorem shuffleLoop_eq_specLoop {α : Type} (seed : Nat) :
    ∀ (n : Nat) (l : List α), shuffleLoop seed n l = shuffleSpecLoop seed n l
  | 0, _ => rfl
  | 1, _ => rfl
  | n + 2, l => by
    show shuffleLoop seed (n + 1) _ = shuffleSpecLoop seed (n + 1) _
    rw [shuffleLoop_eq_specLoop seed (n + 1)]
    rfl

/-- `uniqueByName`'s loop keeps a subsequence of its input. -/
theorem uniqueByNameAux_sublist :
    ∀ (l : List WorkoutExercise) (seen : List String), (uniqueByNameAux seen l).Sublist l
  | [], _ => .slnil
  | e :: rest, seen => by
    simp only [uniqueByNameAux]
    split
    · exact (uniqueByNameAux_sublist rest seen).cons e
    · exact (uniqueByNameAux_sublist rest _).cons₂ e

/-- The names surviving `uniqueByName`'s loop are distinct and disjoint from
the already-seen set. -/
theorem uniqueByNameAux_names_nodup :
    ∀ (l : List WorkoutExercise) (seen : List String),
      ((uniqueByNameAux seen l).map (fun we => we.exercise.name)).Nodup ∧
      ∀ n ∈ (uniqueByNameAux seen l).map (fun we => we.exercise.name), n ∉ seen
  | [], _ => by simp [uniqueByNameAux]
  | e :: rest, seen => by
    simp only [uniqueByNameAux]
    split
    next hmem =>
      exact uniqueByNameAux_names_nodup rest seen
    next hmem =>
      have ih := uniqueByNameAux_names_nodup rest (e.exercise.name :: seen)
      refine ⟨?_, ?_⟩
      · simp only [List.map_cons, List.nodup_cons]
        refine ⟨fun hc => ?_, ih.1⟩
        exact (ih.2 _ hc) (List.mem_cons_self _ _)
      · intro n hn
        simp only [List.map_cons, List.mem_cons] at hn
        rcases hn with rfl | hn
        · exact hmem
        · intro hns
          exact (ih.2 n hn) (List.mem_cons_of_mem _ hns)

/-- Everything `uniqueByName`'s loop keeps is the first occurrence of its name. -/
theorem uniqueByNameAux_first :
    ∀ (l : List WorkoutExercise) (seen : List String) (e : WorkoutExercise),
      e ∈ uniqueByNameAux seen l →
      e.exercise.name ∉ seen ∧
        l.find? (fun x => x.exercise.name == e.exercise.name) = some e
  | [], _, _, h => by simp [uniqueByNameAux] at h
  | x :: rest, seen, e, h => by
    simp only [uniqueByNameAux] at h
    split at h
    next hmem =>
      have ih := uniqueByNameAux_first rest seen e h
      have hne : x.exercise.name ≠ e.exercise.name := fun hc => ih.1 (hc ▸ hmem)
      refine ⟨ih.1, ?_⟩
      rw [List.find?_cons_of_neg _ (by simpa using hne)]
      exact ih.2
    next hmem =>
      rcases List.mem_cons.mp h with rfl | h2
      · refine ⟨hmem, ?_⟩
        rw [List.find?_cons_of_pos _ (by simp)]
      · have ih := uniqueByNameAux_first rest (x.exercise.name :: seen) e h2
        have hnm : e.exercise.name ∉ seen := fun hc => ih.1 (List.mem_cons_of_mem _ hc)
        have hne : x.exercise.name ≠ e.exercise.name :=
          fun hc => ih.1 (hc ▸ List.mem_cons_self _ _)
        refine ⟨hnm, ?_⟩
        rw [List.find?_cons_of_neg _ (by simpa using hne)]
        exact ih.2

/-- `uniqueByName`'s loop drops no name that was not already seen. -/
theorem uniqueByNameAux_names_mem :
    ∀ (l : List WorkoutExercise) (seen : List String) (n : String), n ∉ seen →
      (n ∈ (uniqueByNameAux seen l).map (fun we => we.exercise.name) ↔
        n ∈ l.map (fun we => we.exercise.name))
  | [], _, _, _ => Iff.rfl
  | e :: rest, seen, n, hn => by
    simp only [uniqueByNameAux]
    split
    next hmem =>
      have hne : n ≠ e.exercise.name := fun hc => hn (hc ▸ hmem)
      rw [uniqueByNameAux_names_mem rest seen n hn]
      simp [hne]
    next hmem =>
      by_cases hne : n = e.exercise.name
      · subst hne
        simp
      · have hn2 : n ∉ e.exercise.name :: seen := by
          simp only [List.mem_cons]
          rintro (hc | hc)
          · exact hne hc
          · exact hn hc
        rw [List.map_cons, List.map_cons, List.mem_cons, List.mem_cons,
          uniqueByNameAux_names_mem rest _ n hn2]

/-- Shared outcome classification of the upper-body and full-body tails:
failure exactly on an empty deduplicated list, and the reduced-volume note
exactly below ten exercises. -/
theorem finishUpperOrFullBody_spec (now : Int) (l : List WorkoutExercise) :
    (finishUpperOrFullBody now l = .err (.optimizationFailed
        "All muscle groups are under recovery. Please rest or try again later.") ↔ l = []) ∧
    ∀ w, finishUpperOrFullBody now l = .ok w →
      w.exercises = l ∧
      w.note = if w.exercises.length < 10 then "Reduced volume due to recovery constraints."
        else "" := by
  simp only [finishUpperOrFullBody]
  split
  next h =>
    have hl : l = [] := List.length_eq_zero.mp h
    constructor
    · simp [hl]
    · intro w hw
      cases hw
  next h =>
    constructor
    · constructor
      · intro hc
        cases hc
      · intro hc
        exact absurd (by simp [hc]) h
    · intro w hw
      injection hw with h2
      subst h2
      exact ⟨rfl, rfl⟩

/-! Claim theorems. -/

/-- C1 (amended): with the test override inactive, each leg subgroup's quota is
2 at recovery ≥ 80, 1 at 50 ≤ recovery < 80 — the source's middle threshold is
50, not the claimed 30 — and 0 otherwise. -/
theorem leg_subgroup_quota (now : Int) (recovery : RecoveryState) :
    (getExerciseCountForGroup false now "Quads" recovery =
      if recovery.quadsRecovery.recoveryPercentage ≥ 80 then 2
      else if recovery.quadsRecovery.recoveryPercentage ≥ 50 then 1 else 0) ∧
    (getExerciseCountForGroup false now "Hamstrings" recovery =
      if recovery.hamstringsRecovery.recoveryPercentage ≥ 80 then 2
      else if recovery.hamstringsRecovery.recoveryPercentage ≥ 50 then 1 else 0) ∧
    (getExerciseCountForGroup false now "Glutes" recovery =
      if recovery.glutesRecovery.recoveryPercentage ≥ 80 then 2
      else if recovery.glutesRecovery.recoveryPercentage ≥ 50 then 1 else 0) ∧
    (getExerciseCountForGroup false now "Calves" recovery =
      if recovery.calvesRecovery.recoveryPercentage ≥ 80 then 2
      else if recovery.calvesRecovery.recoveryPercentage ≥ 50 then 1 else 0) := by
  refine ⟨?_, ?_, ?_, ?_⟩ <;> simp [getExerciseCountForGroup]

/-- C1 counterexample: at 40% quads recovery — inside the claimed `[30, 80)`
band that should yield quota 1 — the code returns quota 0. -/
theorem leg_subgroup_quota_cx :
    quadsForty.quadsRecovery.recoveryPercentage = 40 ∧
    (30 : ℚ) ≤ quadsForty.quadsRecovery.recoveryPercentage ∧
    quadsForty.quadsRecovery.recoveryPercentage < 80 ∧
    getExerciseCountForGroup false 0 "Quads" quadsForty = 0 ∧
    getExerciseCountForGroup false 0 "Quads" quadsForty ≠ 1 := by
  decide

/-- C2: the lower-body generator always returns a successful plan (so never the
`optimizationFailed` error), and when all five per-group selections are empty
the plan is empty with volume 0 and the note
"All lower muscle groups recovering". -/
theorem lower_body_never_fails (lib : List Exercise) (testMode : Bool) (now : Int)
    (callerBytes : List Nat) (counter : Nat) (profile : UserProfile)
    (storedRecovery : RecoveryState) :
    (∃ w, generateLowerBodyWorkoutWith lib testMode now callerBytes counter profile
        storedRecovery = .ok w) ∧
    ((lowerBodySectionsWith lib testMode now callerBytes counter profile
        storedRecovery).totalCount = 0 →
      generateLowerBodyWorkoutWith lib testMode now callerBytes counter profile
          storedRecovery =
        .ok { exercises := [], timestamp := now, totalVolume := 0,
              note := "All lower muscle groups recovering" }) := by
  constructor
  · simp only [generateLowerBodyWorkoutWith]
    split
    · exact ⟨_, rfl⟩
    · split
      · exact ⟨_, rfl⟩
      · exact ⟨_, rfl⟩
  · intro h
    simp only [generateLowerBodyWorkoutWith]
    rw [if_pos h]

/-- C2 witness: on the empty catalog every selection is empty and the empty
plan with its explanatory note comes back. -/
theorem lower_body_never_fails_witness :
    (lowerBodySectionsWith [] true 0 [] 0 prof0 allTrainedNow).totalCount = 0 ∧
    generateLowerBodyWorkoutWith [] true 0 [] 0 prof0 allTrainedNow =
      .ok { exercises := [], timestamp := 0, totalVolume := 0,
            note := "All lower muscle groups recovering" } :=
  ⟨by with_unfolding_all decide,
    (lower_body_never_fails [] true 0 [] 0 prof0 allTrainedNow).2
      (by with_unfolding_all decide)⟩

/-- C3: the upper-body and full-body generators fail with `optimizationFailed`
exactly when their assembled, deduplicated list is empty, and on success carry
the reduced-volume note exactly when fewer than ten exercises remain, the empty
note otherwise. -/
theorem upper_full_body_failure_iff (lib : List Exercise) (testMode : Bool) (now : Int)
    (callerBytes : List Nat) (counter : Nat) (profile : UserProfile)
    (storedRecovery : RecoveryState) :
    (generateUpperBodyWorkoutWith lib testMode now callerBytes counter profile storedRecovery =
        .err (.optimizationFailed
          "All muscle groups are under recovery. Please rest or try again later.") ↔
      upperBodyAssembled lib testMode now callerBytes counter profile storedRecovery = []) ∧
    (∀ w, generateUpperBodyWorkoutWith lib testMode now callerBytes counter profile
        storedRecovery = .ok w →
      w.note = if w.exercises.length < 10 then "Reduced volume due to recovery constraints."
        else "") ∧
    (generateFullBodyWorkoutWith lib testMode now callerBytes counter profile storedRecovery =
        .err (.optimizationFailed
          "All muscle groups are under recovery. Please rest or try again later.") ↔
      fullBodyAssembled lib testMode now callerBytes counter profile storedRecovery = []) ∧
    (∀ w, generateFullBodyWorkoutWith lib testMode now callerBytes counter profile
        storedRecovery = .ok w →
      w.note = if w.exercises.length < 10 then "Reduced volume due to recovery constraints."
        else "") := by
  refine ⟨?_, ?_, ?_, ?_⟩
  · exact (finishUpperOrFullBody_spec now _).1
  · intro w hw
    exact ((finishUpperOrFullBody_spec now _).2 w hw).2
  · exact (finishUpperOrFullBody_spec now _).1
  · intro w hw
    exact ((finishUpperOrFullBody_spec now _).2 w hw).2

/-- C3 witness: a one-exercise catalog yields a successful single-exercise plan
from both generators, and its note is the reduced-volume message. -/
theorem upper_full_body_failure_iff_witness :
    generateUpperBodyWorkoutWith tinyLib true 0 [] 0 prof0 allTrainedNow = .ok wReduced ∧
    generateFullBodyWorkoutWith tinyLib true 0 [] 0 prof0 allTrainedNow = .ok wReduced ∧
    wReduced.note =
      (if wReduced.exercises.length < 10 then "Reduced volume due to recovery constraints."
        else "") := by
  have hU : generateUpperBodyWorkoutWith tinyLib true 0 [] 0 prof0 allTrainedNow =
      .ok wReduced := by with_unfolding_all decide
  have hF : generateFullBodyWorkoutWith tinyLib true 0 [] 0 prof0 allTrainedNow =
      .ok wReduced := by with_unfolding_all decide
  exact ⟨hU, hF,
    (upper_full_body_failure_iff tinyLib true 0 [] 0 prof0 allTrainedNow).2.1 wReduced hU⟩

/-- C4 (amended): a non-empty lower-body plan's note is
"Core-focused session" when the pre-cap leg-subgroup count is 0,
"Limited leg exercises due to muscle recovery" when the final list has at most
3 exercises, and "Full lower-body workout (limited volume)" otherwise — the
source's three strings differ from all three strings the claim states. -/
theorem lower_body_note_classification (lib : List Exercise) (testMode : Bool) (now : Int)
    (callerBytes : List Nat) (counter : Nat) (profile : UserProfile)
    (storedRecovery : RecoveryState) (w : WorkoutWithNote)
    (hok : generateLowerBodyWorkoutWith lib testMode now callerBytes counter profile
        storedRecovery = .ok w)
    (hne : w.exercises ≠ []) :
    w.note =
      if (lowerBodySectionsWith lib testMode now callerBytes counter profile
          storedRecovery).legCount = 0 then "Core-focused session"
      else if w.exercises.length ≤ 3 then "Limited leg exercises due to muscle recovery"
      else "Full lower-body workout (limited volume)" := by
  simp only [generateLowerBodyWorkoutWith] at hok
  split at hok
  · injection hok with h2
    subst h2
    simp at hne
  · split at hok
    · injection hok with h2
      subst h2
      simp at hne
    · injection hok with h2
      subst h2
      rfl

/-- C4 witness: the one-exercise catalog gives a non-empty core-only plan whose
note follows the amended classification. -/
theorem lower_body_note_classification_witness :
    generateLowerBodyWorkoutWith tinyLib true 0 [] 0 prof0 allTrainedNow = .ok wCoreOnly ∧
    wCoreOnly.exercises ≠ [] ∧
    wCoreOnly.note =
      (if (lowerBodySectionsWith tinyLib true 0 [] 0 prof0 allTrainedNow).legCount = 0 then
        "Core-focused session"
      else if wCoreOnly.exercises.length ≤ 3 then "Limited leg exercises due to muscle recovery"
      else "Full lower-body workout (limited volume)") := by
  have hok : generateLowerBodyWorkoutWith tinyLib true 0 [] 0 prof0 allTrainedNow =
      .ok wCoreOnly := by with_unfolding_all decide
  refine ⟨hok, by with_unfolding_all decide, ?_⟩
  exact lower_body_note_classification tinyLib true 0 [] 0 prof0 allTrainedNow wCoreOnly hok
    (by with_unfolding_all decide)

/-- C4 counterexample: on the shipped catalog, each of the three claimed note
strings differs from what the code attaches — the code writes
"Core-focused session", "Limited leg exercises due to muscle recovery" and
"Full lower-body workout (limited volume)". -/
theorem lower_body_note_cx :
    ((lowerBodySectionsWith exerciseLibrary false 0 [] 0 prof0 allTrainedNow).legCount = 0 ∧
      Result.exercisesOf (generateLowerBodyWorkout false 0 [] 0 prof0 allTrainedNow) ≠
        some [] ∧
      Result.noteOf (generateLowerBodyWorkout false 0 [] 0 prof0 allTrainedNow) =
        some "Core-focused session" ∧
      Result.noteOf (generateLowerBodyWorkout false 0 [] 0 prof0 allTrainedNow) ≠
        some "Core-focused session (leg subgroups recovering)") ∧
    ((lowerBodySectionsWith exerciseLibrary false 0 [] 0 prof0
        quadsTrainedThirtySixHoursAgo).legCount = 1 ∧
      (Result.exercisesOf (generateLowerBodyWorkout false 0 [] 0 prof0
        quadsTrainedThirtySixHoursAgo)).map List.length = some 3 ∧
      Result.noteOf (generateLowerBodyWorkout false 0 [] 0 prof0
          quadsTrainedThirtySixHoursAgo) =
        some "Limited leg exercises due to muscle recovery" ∧
      Result.noteOf (generateLowerBodyWorkout false 0 [] 0 prof0
          quadsTrainedThirtySixHoursAgo) ≠
        some "Limited exercises due to muscle recovery") ∧
    ((lowerBodySectionsWith exerciseLibrary true 0 [] 0 prof0 allTrainedNow).legCount = 8 ∧
      (Result.exercisesOf (generateLowerBodyWorkout true 0 [] 0 prof0
        allTrainedNow)).map List.length = some 8 ∧
      Result.noteOf (generateLowerBodyWorkout true 0 [] 0 prof0 allTrainedNow) =
        some "Full lower-body workout (limited volume)" ∧
      Result.noteOf (generateLowerBodyWorkout true 0 [] 0 prof0 allTrainedNow) ≠
        some "Full lower-body workout") := by
  with_unfolding_all decide

/-- C5 (amended): with the override active, the refreshed state carries
recovery 100 everywhere but sets every group's `lastTrained` to the chest
group's input value — it does not preserve each group's own `lastTrained`. -/
theorem refresh_override_semantics (now : Int) (existing : RecoveryState) :
    refreshAllRecoveryPercentages true now existing =
      { chest := ⟨existing.chest.lastTrained, 100⟩
        back := ⟨existing.chest.lastTrained, 100⟩
        shoulders := ⟨existing.chest.lastTrained, 100⟩
        arms := ⟨existing.chest.lastTrained, 100⟩
        core := ⟨existing.chest.lastTrained, 100⟩
        quadsRecovery := ⟨existing.chest.lastTrained, 100⟩
        hamstringsRecovery := ⟨existing.chest.lastTrained, 100⟩
        glutesRecovery := ⟨existing.chest.lastTrained, 100⟩
        calvesRecovery := ⟨existing.chest.lastTrained, 100⟩ } := rfl

/-- C5 counterexample: with back last trained at 5 and chest at 0, the
override-mode refresh rewrites back's `lastTrained` to 0 instead of
preserving 5. -/
theorem refresh_override_cx :
    mixedState.back.lastTrained = 5 ∧
    (refreshAllRecoveryPercentages true 0 mixedState).back.lastTrained = 0 ∧
    (refreshAllRecoveryPercentages true 0 mixedState).back.lastTrained ≠
      mixedState.back.lastTrained ∧
    (refreshAllRecoveryPercentages true 0 mixedState).back.recoveryPercentage = 100 := by
  decide

/-- C6: one source shuffle call equals the spec's reference algorithm at seed
`hash(identity) + counter`, its output permutes the input, and the hash is the
`(hash * 31 + byte) mod 1000000007` byte fold from 0. -/
theorem shuffle_matches_reference {α : Type} (callerBytes : List Nat) (counter : Nat)
    (arr : List α) :
    shuffleCall callerBytes counter arr = shuffleSpec (principalHash callerBytes + counter) arr ∧
    (shuffleCall callerBytes counter arr).Perm arr ∧
    principalHash callerBytes =
      callerBytes.foldl (fun hash b => (hash * 31 + b) % 1000000007) 0 :=
  ⟨shuffleLoop_eq_specLoop _ arr.length arr, shuffleArray_perm _ arr, rfl⟩

/-- C7: whenever `now ≥ lastTrained` and the window is positive, the computed
recovery percentage lies in `[0, 100]`. -/
theorem recovery_percentage_clamped (now lastTrained window : Int)
    (h1 : lastTrained ≤ now) (h2 : 0 < window) :
    0 ≤ calculateRecoveryPercentage now lastTrained window ∧
      calculateRecoveryPercentage now lastTrained window ≤ 100 := by
  unfold calculateRecoveryPercentage
  refine ⟨le_min (by norm_num) ?_, min_le_left _ _⟩
  have hn : (0 : ℚ) ≤ ((now - lastTrained : Int) : ℚ) := by
    exact_mod_cast Int.sub_nonneg.mpr h1
  have hw : (0 : ℚ) < ((window : Int) : ℚ) := by exact_mod_cast h2
  positivity

/-- C7 witness: one hour after training with a 72-hour window the percentage is
within bounds. -/
theorem recovery_percentage_clamped_witness :
    (0 : Int) ≤ 1 ∧ (0 : Int) < 72 ∧
      (0 ≤ calculateRecoveryPercentage 1 0 72 ∧ calculateRecoveryPercentage 1 0 72 ≤ 100) :=
  ⟨by norm_num, by norm_num, recovery_percentage_clamped 1 0 72 (by norm_num) (by norm_num)⟩

/-- C8: deduplication keeps a subsequence of first occurrences with pairwise
distinct names while preserving the set of names, and every plan any of the
three generators returns has pairwise distinct exercise names. -/
theorem generated_plans_nodup_names (l : List WorkoutExercise) (lib : List Exercise)
    (testMode : Bool) (now : Int) (callerBytes : List Nat) (counter : Nat)
    (profile : UserProfile) (storedRecovery : RecoveryState) :
    ((uniqueByName l).map (fun we => we.exercise.name)).Nodup ∧
    (uniqueByName l).Sublist l ∧
    (∀ e ∈ uniqueByName l,
      l.find? (fun x => x.exercise.name == e.exercise.name) = some e) ∧
    (∀ n, n ∈ (uniqueByName l).map (fun we => we.exercise.name) ↔
      n ∈ l.map (fun we => we.exercise.name)) ∧
    (∀ w, generateLowerBodyWorkoutWith lib testMode now callerBytes counter profile
        storedRecovery = .ok w → (w.exercises.map (fun we => we.exercise.name)).Nodup) ∧
    (∀ w, generateUpperBodyWorkoutWith lib testMode now callerBytes counter profile
        storedRecovery = .ok w → (w.exercises.map (fun we => we.exercise.name)).Nodup) ∧
    (∀ w, generateFullBodyWorkoutWith lib testMode now callerBytes counter profile
        storedRecovery = .ok w → (w.exercises.map (fun we => we.exercise.name)).Nodup) := by
  refine ⟨(uniqueByNameAux_names_nodup l []).1, uniqueByNameAux_sublist l [],
    fun e he => (uniqueByNameAux_first l [] e he).2,
    fun n => uniqueByNameAux_names_mem l [] n (by simp), ?_, ?_, ?_⟩
  · intro w hok
    simp only [generateLowerBodyWorkoutWith] at hok
    split at hok
    · injection hok with h2
      subst h2
      simp
    · split at hok
      · injection hok with h2
        subst h2
        simp
      · injection hok with h2
        subst h2
        dsimp only
        split
        · rw [List.map_take]
          exact List.Nodup.sublist (List.take_sublist _ _) (uniqueByNameAux_names_nodup _ []).1
        · exact (uniqueByNameAux_names_nodup _ []).1
  · intro w hok
    have h := ((finishUpperOrFullBody_spec now _).2 w hok).1
    rw [h]
    exact (uniqueByNameAux_names_nodup _ []).1
  · intro w hok
    have h := ((finishUpperOrFullBody_spec now _).2 w hok).1
    rw [h]
    exact (uniqueByNameAux_names_nodup _ []).1

/-- C8 witness: concrete plans from all generators (and a duplicate-bearing
input list) instantiate the deduplication properties. -/
theorem generated_plans_nodup_names_witness :
    generateLowerBodyWorkoutWith tinyLib true 0 [] 0 prof0 allTrainedNow = .ok wCoreOnly ∧
    generateUpperBodyWorkoutWith tinyLib true 0 [] 0 prof0 allTrainedNow = .ok wReduced ∧
    planksSelected ∈ uniqueByName [planksSelected, planksSelected] ∧
    (wCoreOnly.exercises.map (fun we => we.exercise.name)).Nodup ∧
    (wReduced.exercises.map (fun we => we.exercise.name)).Nodup ∧
    [planksSelected, planksSelected].find?
        (fun x => x.exercise.name == planksSelected.exercise.name) = some planksSelected := by
  have hok : generateLowerBodyWorkoutWith tinyLib true 0 [] 0 prof0 allTrainedNow =
      .ok wCoreOnly := by with_unfolding_all decide
  have hokU : generateUpperBodyWorkoutWith tinyLib true 0 [] 0 prof0 allTrainedNow =
      .ok wReduced := by with_unfolding_all decide
  have hmem : planksSelected ∈ uniqueByName [planksSelected, planksSelected] := by
    with_unfolding_all decide
  refine ⟨hok, hokU, hmem, ?_, ?_, ?_⟩
  · exact (generated_plans_nodup_names [] tinyLib true 0 [] 0 prof0 allTrainedNow).2.2.2.2.1
      wCoreOnly hok
  · exact (generated_plans_nodup_names [] tinyLib true 0 [] 0 prof0
      allTrainedNow).2.2.2.2.2.1 wReduced hokU
  · exact (generated_plans_nodup_names [planksSelected, planksSelected] tinyLib true 0 [] 0
      prof0 allTrainedNow).2.2.1 planksSelected hmem

/-- C9: for in-range subgroup percentages, the aggregated Legs record clamps
the 0.38/0.22/0.30/0.10 weighted sum, which stays between the subgroup minimum
and maximum, and takes the latest `lastTrained` of the four subgroups. -/
theorem legs_aggregation_bounds (quads hamstrings glutes calves : MuscleRecovery)
    (hq0 : 0 ≤ quads.recoveryPercentage) (hq1 : quads.recoveryPercentage ≤ 100)
    (hh0 : 0 ≤ hamstrings.recoveryPercentage) (hh1 : hamstrings.recoveryPercentage ≤ 100)
    (hg0 : 0 ≤ glutes.recoveryPercentage) (hg1 : glutes.recoveryPercentage ≤ 100)
    (hc0 : 0 ≤ calves.recoveryPercentage) (hc1 : calves.recoveryPercentage ≤ 100) :
    (calculateLegsFromSubgroups quads hamstrings glutes calves).recoveryPercentage =
        min 100 (max 0 (0.38 * quads.recoveryPercentage + 0.22 * hamstrings.recoveryPercentage +
          0.30 * glutes.recoveryPercentage + 0.10 * calves.recoveryPercentage)) ∧
      min (min (min quads.recoveryPercentage hamstrings.recoveryPercentage)
          glutes.recoveryPercentage) calves.recoveryPercentage ≤
        (calculateLegsFromSubgroups quads hamstrings glutes calves).recoveryPercentage ∧
      (calculateLegsFromSubgroups quads hamstrings glutes calves).recoveryPercentage ≤
        max (max (max quads.recoveryPercentage hamstrings.recoveryPercentage)
          glutes.recoveryPercentage) calves.recoveryPercentage ∧
      (calculateLegsFromSubgroups quads hamstrings glutes calves).lastTrained =
        max (max (max quads.lastTrained hamstrings.lastTrained) glutes.lastTrained)
          calves.lastTrained := by
  unfold calculateLegsFromSubgroups
  dsimp only
  set q := quads.recoveryPercentage
  set h := hamstrings.recoveryPercentage
  set g := glutes.recoveryPercentage
  set c := calves.recoveryPercentage
  have hw : q * 0.38 + h * 0.22 + g * 0.30 + c * 0.10 =
      0.38 * q + 0.22 * h + 0.30 * g + 0.10 * c := by ring
  have hmq : min (min (min q h) g) c ≤ q := le_trans (min_le_left _ _)
    (le_trans (min_le_left _ _) (min_le_left _ _))
  have hmh : min (min (min q h) g) c ≤ h := le_trans (min_le_left _ _)
    (le_trans (min_le_left _ _) (min_le_right _ _))
  have hmg : min (min (min q h) g) c ≤ g := le_trans (min_le_left _ _) (min_le_right _ _)
  have hmc : min (min (min q h) g) c ≤ c := min_le_right _ _
  have hMq : q ≤ max (max (max q h) g) c := le_trans (le_trans (le_max_left _ _)
    (le_max_left _ _)) (le_max_left _ _)
  have hMh : h ≤ max (max (max q h) g) c := le_trans (le_trans (le_max_right _ _)
    (le_max_left _ _)) (le_max_left _ _)
  have hMg : g ≤ max (max (max q h) g) c := le_trans (le_max_right _ _) (le_max_left _ _)
  have hMc : c ≤ max (max (max q h) g) c := le_max_right _ _
  have hlow : min (min (min q h) g) c ≤ q * 0.38 + h * 0.22 + g * 0.30 + c * 0.10 := by
    nlinarith [hmq, hmh, hmg, hmc]
  have hhigh : q * 0.38 + h * 0.22 + g * 0.30 + c * 0.10 ≤ max (max (max q h) g) c := by
    nlinarith [hMq, hMh, hMg, hMc]
  have h0w : (0 : ℚ) ≤ q * 0.38 + h * 0.22 + g * 0.30 + c * 0.10 := by nlinarith
  have h100 : q * 0.38 + h * 0.22 + g * 0.30 + c * 0.10 ≤ 100 := by nlinarith
  have hmax : max 0 (q * 0.38 + h * 0.22 + g * 0.30 + c * 0.10) =
      q * 0.38 + h * 0.22 + g * 0.30 + c * 0.10 := max_eq_right h0w
  have hclamp : min 100 (max 0 (q * 0.38 + h * 0.22 + g * 0.30 + c * 0.10)) =
      q * 0.38 + h * 0.22 + g * 0.30 + c * 0.10 := by
    rw [hmax]
    exact min_eq_right h100
  refine ⟨by rw [hw], ?_, ?_, ?_⟩
  · rw [hclamp]
    exact hlow
  · rw [hclamp]
    exact hhigh
  · rw [max_assoc, max_assoc]

/-- C9 witness: the bounds instantiated at four sample subgroup records. -/
theorem legs_aggregation_bounds_witness :
    (0 ≤ mrA.recoveryPercentage ∧ mrA.recoveryPercentage ≤ 100) ∧
    ((calculateLegsFromSubgroups mrA mrB mrC mrD).recoveryPercentage =
        min 100 (max 0 (0.38 * mrA.recoveryPercentage + 0.22 * mrB.recoveryPercentage +
          0.30 * mrC.recoveryPercentage + 0.10 * mrD.recoveryPercentage)) ∧
      min (min (min mrA.recoveryPercentage mrB.recoveryPercentage)
          mrC.recoveryPercentage) mrD.recoveryPercentage ≤
        (calculateLegsFromSubgroups mrA mrB mrC mrD).recoveryPercentage ∧
      (calculateLegsFromSubgroups mrA mrB mrC mrD).recoveryPercentage ≤
        max (max (max mrA.recoveryPercentage mrB.recoveryPercentage)
          mrC.recoveryPercentage) mrD.recoveryPercentage ∧
      (calculateLegsFromSubgroups mrA mrB mrC mrD).lastTrained =
        max (max (max mrA.lastTrained mrB.lastTrained) mrC.lastTrained) mrD.lastTrained) :=
  ⟨by decide, legs_aggregation_bounds mrA mrB mrC mrD (by decide) (by decide) (by decide)
    (by decide) (by decide) (by decide) (by decide) (by decide)⟩

/-- C10: the shipped override flag is the constant `true`, under it every
group's quota is 2 for every recovery state, and every refreshed recovery
percentage is 100. -/
theorem test_mode_constant_effects :
    TEST_RECOVERY_MODE = true ∧
    (∀ (now : Int) (group : String) (recovery : RecoveryState),
      getExerciseCountForGroup TEST_RECOVERY_MODE now group recovery = 2) ∧
    (∀ (now : Int) (s : RecoveryState),
      (refreshAllRecoveryPercentages TEST_RECOVERY_MODE now s).chest.recoveryPercentage = 100 ∧
      (refreshAllRecoveryPercentages TEST_RECOVERY_MODE now s).back.recoveryPercentage = 100 ∧
      (refreshAllRecoveryPercentages TEST_RECOVERY_MODE now s).shoulders.recoveryPercentage
        = 100 ∧
      (refreshAllRecoveryPercentages TEST_RECOVERY_MODE now s).arms.recoveryPercentage = 100 ∧
      (refreshAllRecoveryPercentages TEST_RECOVERY_MODE now s).core.recoveryPercentage = 100 ∧
      (refreshAllRecoveryPercentages TEST_RECOVERY_MODE now s).quadsRecovery.recoveryPercentage
        = 100 ∧
      (refreshAllRecoveryPercentages TEST_RECOVERY_MODE now
        s).hamstringsRecovery.recoveryPercentage = 100 ∧
      (refreshAllRecoveryPercentages TEST_RECOVERY_MODE now s).glutesRecovery.recoveryPercentage
        = 100 ∧
      (refreshAllRecoveryPercentages TEST_RECOVERY_MODE now s).calvesRecovery.recoveryPercentage
        = 100) := by
  refine ⟨rfl, fun now group recovery => ?_, fun now s => ?_⟩
  · simp [getExerciseCountForGroup, TEST_RECOVERY_MODE]
  · simp [refreshAllRecoveryPercentages, TEST_RECOVERY_MODE]

end Tracker
